import Mathlib

/-!
Verification development for the supportbot repository (src/index.js).

The file shallowly embeds the data model and the operations of the bot:
the sqlite-backed ticket table and its four mutators, the slug helper
normalizeForName, the unique-channel-name loop, the transcript builder
makeTranscript with its backwards message paging, the close flow with its
delayed deletion step, the transient pending-category map, and the ticket
creation path with its category fallback.  Stateful JavaScript is embedded
as explicit state passing; the message/file/channel side of the chat
platform is modelled as explicit lists and finite maps.
-/

namespace SupportBot

/-! ### normalizeForName (src/index.js lines 109-115)

JavaScript:
  if (!s) return '';
  return String(s).toLowerCase()
    .replace(/[^a-z0-9\s-_]/g, '')
    .trim()
    .replace(/\s+/g, '-');

Characters are modelled as Lean Char (Unicode scalar values, as in JS
strings).  The \s class of JavaScript regular expressions is the set
jsSpace below.  toLowerCase is modelled as ASCII lowercasing: the very next
step strips every character outside [a-z0-9\s-_], so the only lowercasing
that can reach the output is the ASCII one. -/

/-- The character class matched by \s in a JavaScript regular expression
(also the class trimmed by String.prototype.trim). -/
def isJsSpace (c : Char) : Bool :=
  decide (c = ' ' ∨ c = '\t' ∨ c = '\n' ∨ c.toNat = 11 ∨ c.toNat = 12 ∨ c = '\r' ∨
    c.toNat = 0xa0 ∨ c.toNat = 0x1680 ∨ (0x2000 ≤ c.toNat ∧ c.toNat ≤ 0x200a) ∨
    c.toNat = 0x2028 ∨ c.toNat = 0x2029 ∨ c.toNat = 0x202f ∨ c.toNat = 0x205f ∨
    c.toNat = 0x3000 ∨ c.toNat = 0xfeff)

/-- The character class [a-z0-9\s-_] kept by the first replace. -/
def keepChar (c : Char) : Bool :=
  decide (('a' ≤ c ∧ c ≤ 'z') ∨ ('0' ≤ c ∧ c ≤ '9')) || isJsSpace c ||
    decide (c = '-' ∨ c = '_')

/-- String.prototype.trim on the character list. -/
def jsTrim (l : List Char) : List Char :=
  ((l.dropWhile isJsSpace).reverse.dropWhile isJsSpace).reverse

/-- .replace(/\s+/g, '-'): every maximal run of \s characters becomes one
dash.  The Boolean argument records whether we are inside a run of \s
characters whose dash has already been emitted. -/
def collapseAux : Bool → List Char → List Char
  | _, [] => []
  | inRun, c :: cs =>
    if isJsSpace c then
      if inRun then collapseAux true cs else '-' :: collapseAux true cs
    else c :: collapseAux false cs

def collapseSpaces (l : List Char) : List Char :=
  collapseAux false l

/-- normalizeForName from src/index.js.  The !s guard returns '' exactly on
the empty string (the only falsy string). -/
def normalizeForName (s : String) : String :=
  if s = "" then ""
  else ⟨collapseSpaces (jsTrim ((s.data.map Char.toLower).filter keepChar))⟩

/-- The output alphabet asserted by the spec: lowercase ASCII letters,
digits, dashes, underscores. -/
def isOutChar (c : Char) : Bool :=
  decide (('a' ≤ c ∧ c ≤ 'z') ∨ ('0' ≤ c ∧ c ≤ '9') ∨ c = '-' ∨ c = '_')

/-! ### The ticket table (src/index.js lines 56-68 and 136-158)

One sqlite table; rows are never deleted.  The columns are exactly the
schema of the CREATE TABLE statement; TEXT columns are String, the nullable
ones Option String, INTEGER columns Nat. -/

structure TicketRow where
  id : Nat
  guild_id : String
  channel_id : String
  owner_id : String
  claimed_by : Option String
  status : String
  category : Option String
  topic : Option String
  created_at : Nat
deriving DecidableEq

abbrev TicketDB := List TicketRow

/-- SELECT * FROM tickets WHERE id = ? (better-sqlite3 .get returns the
first matching row). -/
def getTicketById (db : TicketDB) (tid : Nat) : Option TicketRow :=
  db.find? (fun r => r.id == tid)

/-- SELECT * FROM tickets WHERE channel_id = ? -/
def getTicketByChannel (db : TicketDB) (cid : String) : Option TicketRow :=
  db.find? (fun r => r.channel_id == cid)

/-- UPDATE tickets SET claimed_by = ? WHERE id = ? -/
def updateTicketClaim (db : TicketDB) (tid : Nat) (userId : String) : TicketDB :=
  db.map (fun r => if r.id == tid then { r with claimed_by := some userId } else r)

/-- UPDATE tickets SET claimed_by = NULL WHERE id = ? -/
def unclaimTicket (db : TicketDB) (tid : Nat) : TicketDB :=
  db.map (fun r => if r.id == tid then { r with claimed_by := none } else r)

/-- UPDATE tickets SET status = 'closed' WHERE id = ? -/
def closeTicketRow (db : TicketDB) (tid : Nat) : TicketDB :=
  db.map (fun r => if r.id == tid then { r with status := "closed" } else r)

/-- An interaction reply; err carries the embed title of embedError, ok the
title of the success/info embed. -/
inductive BotReply where
  | err (title : String)
  | ok (title : String)
deriving DecidableEq

/-! ### Claim / Unclaim handlers (src/index.js lines 425-442 and 569-581)

isStaff(member) is modelled by the Boolean staffActor: the claims quantify
over staff and non-staff actors, and the helper only inspects the member's
permissions and roles. -/

/-- Claim button (lines 414-432): parse customId, fetch the row by id,
check staff, check claimed_by, update. -/
def claimButton (db : TicketDB) (staffActor : Bool) (actorId : String)
    (ticketId : Nat) : TicketDB × BotReply :=
  match getTicketById db ticketId with
  | none => (db, .err "Niet gevonden")
  | some ticketRow =>
    if !staffActor then (db, .err "Geen permissie")
    else
      match ticketRow.claimed_by with
      | some _ => (db, .err "Al geclaimd")
      | none => (updateTicketClaim db ticketId actorId, .ok "Ticket geclaimd")

/-- Unclaim button (lines 435-442). -/
def unclaimButton (db : TicketDB) (staffActor : Bool) (ticketId : Nat) :
    TicketDB × BotReply :=
  match getTicketById db ticketId with
  | none => (db, .err "Niet gevonden")
  | some ticketRow =>
    if !staffActor then (db, .err "Geen permissie")
    else
      match ticketRow.claimed_by with
      | none => (db, .err "Niet geclaimd")
      | some _ => (unclaimTicket db ticketId, .ok "Ticket geunclaimd")

/-- /claim command (lines 563-574): row looked up by channel, staff check,
claimed_by check, update keyed by the row's id. -/
def claimCommand (db : TicketDB) (staffActor : Bool) (actorId : String)
    (channelId : String) : TicketDB × BotReply :=
  match getTicketByChannel db channelId with
  | none => (db, .err "Geen ticket")
  | some ticketRow =>
    if !staffActor then (db, .err "Geen permissie")
    else
      match ticketRow.claimed_by with
      | some _ => (db, .err "Al geclaimd")
      | none => (updateTicketClaim db ticketRow.id actorId, .ok "Geclaimd")

/-- /unclaim command (lines 563-567 and 576-581). -/
def unclaimCommand (db : TicketDB) (staffActor : Bool) (channelId : String) :
    TicketDB × BotReply :=
  match getTicketByChannel db channelId with
  | none => (db, .err "Geen ticket")
  | some ticketRow =>
    if !staffActor then (db, .err "Geen permissie")
    else
      match ticketRow.claimed_by with
      | none => (db, .err "Niet geclaimd")
      | some _ => (unclaimTicket db ticketRow.id, .ok "Geunclaimd")

/-! ### Close flow (src/index.js lines 445-498 and 583-610)

The handler marks the row closed in the database immediately, replies, and
arms a 5 second one-shot timer.  The immediate part is closeButton /
closeCommand below; the body of the setTimeout callback is
closeButtonDelayed / closeCommandDelayed, a function from the outcomes of
the awaited external calls to the set of attempts actually made. -/

structure CloseStart where
  db : TicketDB
  reply : BotReply
  timerArmed : Bool
deriving DecidableEq

/-- Close button, immediate part (lines 445-455): staff check, then
closeTicketRow runs synchronously, then the 5s timer is armed. -/
def closeButton (db : TicketDB) (staffActor : Bool) (ticketId : Nat) :
    CloseStart :=
  match getTicketById db ticketId with
  | none => ⟨db, .err "Niet gevonden", false⟩
  | some _ =>
    if !staffActor then ⟨db, .err "Geen permissie", false⟩
    else ⟨closeTicketRow db ticketId, .ok "Sluiten gestart", true⟩

/-- /close command, immediate part (lines 563-567 and 583-588). -/
def closeCommand (db : TicketDB) (staffActor : Bool) (channelId : String) :
    CloseStart :=
  match getTicketByChannel db channelId with
  | none => ⟨db, .err "Geen ticket", false⟩
  | some ticketRow =>
    if !staffActor then ⟨db, .err "Geen permissie", false⟩
    else ⟨closeTicketRow db ticketRow.id, .ok "Sluiten gestart", true⟩

/-- Outcomes of the external calls awaited inside the delayed close step.
transcriptResolves is false when makeTranscript rejects (history fetch or
file write failure); the delivery flags record whether the corresponding
send/delete promise would resolve. -/
structure CloseDelayedEnv where
  channelStillExists : Bool
  transcriptResolves : Bool
  staffLogAvailable : Bool
  ownerAvailable : Bool
  archiveDeliveryResolves : Bool
  dmDeliveryResolves : Bool
  deleteResolves : Bool
deriving DecidableEq

/-- Which steps of the delayed close flow are attempted. -/
structure CloseDelayedTrace where
  transcriptAttempted : Bool
  archiveAttempted : Bool
  dmAttempted : Bool
  deleteAttempted : Bool
deriving DecidableEq

/-- Body of the setTimeout callback of the close button (lines 457-497).
The whole body is one try/catch: a missing channel returns early; a
rejection of makeTranscript jumps to the catch block, skipping the delete;
the archive send, the DM send and the delete each swallow their own
failure with .catch, so control falls through them regardless of their
outcome. -/
def closeButtonDelayed (env : CloseDelayedEnv) : CloseDelayedTrace :=
  if !env.channelStillExists then ⟨false, false, false, false⟩
  else if !env.transcriptResolves then ⟨true, false, false, false⟩
  else ⟨true, env.staffLogAvailable, env.ownerAvailable, true⟩

/-- Body of the setTimeout callback of the /close command (lines 589-608):
identical control flow, except that the catch block only logs. -/
def closeCommandDelayed (env : CloseDelayedEnv) : CloseDelayedTrace :=
  if !env.channelStillExists then ⟨false, false, false, false⟩
  else if !env.transcriptResolves then ⟨true, false, false, false⟩
  else ⟨true, env.staffLogAvailable, env.ownerAvailable, true⟩

/-! ### Unique channel name (src/index.js lines 259-264)

  let channelName = channelBase;
  let suffix = 1;
  while (guild.channels.cache.some(ch => ch.name === channelName)) {
    channelName = `<channelBase>-<suffix++>`;
  }

The candidate sequence is base, base-1, base-2, ...; the loop returns the
first candidate that no existing channel bears.  The while loop is embedded
with an explicit iteration bound; pickName_first proves the bound
sufficient. -/

def digitChar (n : Nat) : Char := Char.ofNat (48 + n)

/-- Decimal digits of n, most significant first; fuel-driven so that the
kernel can evaluate it (the fuel n+1 always suffices). -/
def decimalDigitsAux : Nat → Nat → List Char
  | 0, _ => []
  | fuel + 1, n =>
    if n < 10 then [digitChar n]
    else decimalDigitsAux fuel (n / 10) ++ [digitChar (n % 10)]

def decimalDigits (n : Nat) : List Char := decimalDigitsAux (n + 1) n

/-- JavaScript number-to-string for the nonnegative integers used here. -/
def natToString (n : Nat) : String := ⟨decimalDigits n⟩

/-- The i-th candidate channel name: base, base-1, base-2, ... -/
def candidateName (base : String) (i : Nat) : String :=
  if i = 0 then base else base ++ "-" ++ natToString i

/-- The while loop, scanning candidates from index i with the given fuel. -/
def pickNameAux (base : String) (existing : List String) :
    Nat → Nat → String
  | 0, i => candidateName base i
  | fuel + 1, i =>
    if candidateName base i ∈ existing then pickNameAux base existing fuel (i + 1)
    else candidateName base i

/-- Length of the longest existing name; candidate number 10^that is longer
than every existing name, so the loop needs at most 10^that + 1 tests. -/
def maxNameLen (existing : List String) : Nat :=
  existing.foldr (fun s acc => max s.length acc) 0

def pickName (base : String) (existing : List String) : String :=
  pickNameAux base existing (10 ^ maxNameLen existing + 1) 0

/-! ### Transcript builder (src/index.js lines 309-355)

The platform serves a channel's messages newest first; a fetch with
limit 100 and an optional before-id returns the first 100 of the messages
strictly older than that id.  GuildChannel.history is the full newest-first
message list. -/

structure MsgAttachment where
  url : String
deriving DecidableEq

structure ChannelMsg where
  id : Nat
  createdAtIso : String
  authorTag : Option String
  content : String
  attachments : List MsgAttachment
deriving DecidableEq

structure GuildChannel where
  id : String
  name : String
  history : List ChannelMsg
deriving DecidableEq

/-- The messages visible to a fetch with the given before anchor. -/
def olderThan (history : List ChannelMsg) : Option Nat → List ChannelMsg
  | none => history
  | some b => history.filter (fun m => decide (m.id < b))

/-- channel.messages.fetch({ limit: 100, before? }). -/
def fetchPage (history : List ChannelMsg) (before : Option Nat) : List ChannelMsg :=
  (olderThan history before).take 100

/-- The while(true) paging loop (lines 318-332): fetch, stop on an empty
page, accumulate, re-anchor at fetched.last().id, stop on a short page.
The fuel history.length + 1 is an upper bound on the iterations, proven
sufficient in fetchAll_eq_history. -/
def fetchAllMessages (history : List ChannelMsg) :
    Nat → List ChannelMsg → Option Nat → List ChannelMsg
  | 0, acc, _ => acc
  | fuel + 1, acc, lastId =>
    let fetched := fetchPage history lastId
    if fetched.length = 0 then acc
    else
      let acc2 := acc ++ fetched
      match fetched.getLast? with
      | none => acc2
      | some lastMsg =>
        if fetched.length < 100 then acc2
        else fetchAllMessages history fuel acc2 (some lastMsg.id)

/-- msg.author?.tag || "Onbekend". -/
def authorName (m : ChannelMsg) : String :=
  match m.authorTag with
  | none => "Onbekend"
  | some t => if t = "" then "Onbekend" else t

/-- One message of the transcript body: the [time] author: content line,
then one indented attachment line per attachment (lines 338-349). -/
def renderMessage (m : ChannelMsg) : String :=
  "[" ++ m.createdAtIso ++ "] " ++ authorName m ++ ": " ++ m.content ++ "\n" ++
    String.join (m.attachments.map
      (fun a => "    📎 Attachment: " ++ a.url ++ "\n"))

/-- The full transcript text: header, then the accumulated pages reversed
to chronological order and rendered. -/
def transcriptText (ch : GuildChannel) : String :=
  "Transcript van #" ++ ch.name ++ "\n\n" ++
    String.join
      (((fetchAllMessages ch.history (ch.history.length + 1) [] none).reverse).map
        renderMessage)

/-- path.join(transcriptsDir, channel.id + "-transcript.txt"). -/
def transcriptPath (ch : GuildChannel) : String :=
  "transcripts/" ++ ch.id ++ "-transcript.txt"

/-- The local file system restricted to what the bot writes: a map from
path to content.  fs.writeFileSync overwrites. -/
abbrev FileStore := String → Option String

def writeFile (fs : FileStore) (p : String) (content : String) : FileStore :=
  fun q => if q = p then some content else fs q

/-- makeTranscript (lines 309-355): build the text, write the file,
return the path. -/
def makeTranscript (fs : FileStore) (ch : GuildChannel) : FileStore × String :=
  (writeFile fs (transcriptPath ch) (transcriptText ch), transcriptPath ch)

/-! ### Manual transcript action (src/index.js lines 502-528 and 613-630) -/

def findChannel (chans : List GuildChannel) (cid : String) : Option GuildChannel :=
  chans.find? (fun c => c.id == cid)

/-- The world state a transcript action can touch. -/
structure BotState where
  db : TicketDB
  channels : List GuildChannel
  files : FileStore

/-- Transcript button (lines 502-528): staff check, channel lookup, build
and deliver.  No database statement is executed and no channel is
deleted on any path. -/
def transcriptButton (st : BotState) (staffActor : Bool) (ticketId : Nat) :
    BotState × BotReply :=
  match getTicketById st.db ticketId with
  | none => (st, .err "Niet gevonden")
  | some ticketRow =>
    if !staffActor then (st, .err "Geen permissie")
    else
      match findChannel st.channels ticketRow.channel_id with
      | none => (st, .err "Kanaal niet gevonden")
      | some ch =>
        ({ st with files := (makeTranscript st.files ch).1 }, .ok "Transcript")

/-- /transcript command (lines 563-567 and 613-630): the target channel is
the option or the invoking channel; row looked up by its id. -/
def transcriptCommand (st : BotState) (staffActor : Bool) (ch : GuildChannel) :
    BotState × BotReply :=
  match getTicketByChannel st.db ch.id with
  | none => (st, .err "Geen ticket")
  | some _ =>
    if !staffActor then (st, .err "Geen permissie")
    else ({ st with files := (makeTranscript st.files ch).1 }, .ok "Transcript")

/-! ### Pending category map and ticket creation
(src/index.js lines 96, 361-409 and 242-306) -/

/-- pendingCategoryForUser: Map from user id to the chosen select value. -/
abbrev PendingMap := String → Option String

/-- Category select handler (lines 361-375):
pendingCategoryForUser.set(interaction.user.id, chosen). -/
def selectCategory (pending : PendingMap) (userId : String) (chosen : String) :
    PendingMap :=
  fun u => if u = userId then some chosen else pending u

/-- The 17-entry category catalog (lines 71-89). -/
def CATEGORIES : List String :=
  ["Unban Aanvraag Anti Cheat",
   "Unban Aanvraag Discord",
   "Unban Aanvraag Ingame",
   "Klachten Over Spelers",
   "Klachten Over Staff",
   "Ingame Refunds",
   "Pc Checks",
   "Overige Vragen",
   "Content Creator Coördinator",
   "Hulpdiensten Coördinator",
   "Onderwereld Coördinator",
   "Development",
   "Car Development",
   "Headstaff",
   "Bestuur",
   "Staff Sollicitatie's",
   "Donaties"]

/-- CATEGORIES[categoryIndex] || 'Overige Vragen' (line 243).  none models
a NaN index (parseInt of a non-numeric string); an out-of-range or
negative index reads undefined, and || replaces every falsy value by the
fallback. -/
def categoryFromIndex (idx : Option Int) : String :=
  match idx with
  | none => "Overige Vragen"
  | some i =>
    match (if 0 ≤ i then CATEGORIES.get? i.toNat else none) with
    | none => "Overige Vragen"
    | some s => if s = "" then "Overige Vragen" else s

/-- parseInt(chosen, 10): skip leading whitespace, optional sign, then the
longest digit prefix; no digits means NaN (modelled as none). -/
def digitsPrefixVal (l : List Char) : Option Nat :=
  let ds := l.takeWhile (fun c => decide ('0' ≤ c ∧ c ≤ '9'))
  if ds = [] then none
  else some (ds.foldl (fun acc c => acc * 10 + (c.toNat - 48)) 0)

def parseIntJs (s : String) : Option Int :=
  match s.data.dropWhile isJsSpace with
  | '+' :: rest => (digitsPrefixVal rest).map (fun n => (n : Int))
  | '-' :: rest => (digitsPrefixVal rest).map (fun n => -(n : Int))
  | rest => (digitsPrefixVal rest).map (fun n => (n : Int))

/-- topic_input value || null (line 388) and topic || null (line 140). -/
def jsOrNull (s : String) : Option String :=
  if s = "" then none else some s

/-- The channel base name (lines 247-257): slug of the category, the
username slug, and the nickname slug when present and different.
username stands for the first truthy of user.username, user.tag, 'user';
nickname is none when the member fetch failed or no nickname is set. -/
def channelBaseName (categoryName username : String) (nickname : Option String) :
    String :=
  let u := normalizeForName username
  let n := match nickname with
    | none => ""
    | some nick => if nick = "" then "" else normalizeForName nick
  let b := normalizeForName categoryName ++ "-" ++ u
  if n ≠ "" ∧ n ≠ u then b ++ "-" ++ n else b

/-- Inputs of createTicketChannelFromChoice that come from the platform and
the clock: the guild, the names already in the channel cache, the id the
platform assigns to the new channel, the AUTOINCREMENT id sqlite assigns
to the new row, and Date.now(). -/
structure CreateEnv where
  guildId : String
  existingNames : List String
  newChannelId : String
  newTicketId : Nat
  now : Nat
  username : String
  nickname : Option String

structure CreatedTicket where
  channelName : String
  row : TicketRow
deriving DecidableEq

/-- createTicketChannelFromChoice (lines 242-306): resolve the category
with its fallback, build the base name, pick the first unused channel
name, and insert the row (insertTicketRow, lines 136-142, with
claimed_by null and status 'open'). -/
def createTicketChannelFromChoice (env : CreateEnv) (userId : String)
    (categoryIndex : Option Int) (topic : Option String) : CreatedTicket :=
  let categoryName := categoryFromIndex categoryIndex
  let base := channelBaseName categoryName env.username env.nickname
  let channelName := pickName base env.existingNames
  { channelName := channelName
    row :=
      { id := env.newTicketId
        guild_id := env.guildId
        channel_id := env.newChannelId
        owner_id := userId
        claimed_by := none
        status := "open"
        category := some categoryName
        topic := topic
        created_at := env.now } }

/-- State read and written by the topic modal handler. -/
structure ModalState where
  pending : PendingMap
  db : TicketDB
  channelNames : List String

structure ModalResult where
  pending : PendingMap
  db : TicketDB
  channelNames : List String
  created : Option CreatedTicket
  rejected : Bool

/-- Topic modal submit handler (lines 378-409): read the pending entry,
delete it, reject when it was absent (or falsy), otherwise parse the
index and create the channel and the row. -/
def submitTopicModal (st : ModalState) (userId : String) (topicRaw : String)
    (env : CreateEnv) : ModalResult :=
  let chosen := st.pending userId
  let pending2 : PendingMap := fun u => if u = userId then none else st.pending u
  match chosen with
  | none => ⟨pending2, st.db, st.channelNames, none, true⟩
  | some c =>
    if c = "" then ⟨pending2, st.db, st.channelNames, none, true⟩
    else
      let topic := jsOrNull topicRaw
      let categoryIndex := parseIntJs c
      let ct := createTicketChannelFromChoice env userId categoryIndex topic
      ⟨pending2, st.db ++ [ct.row], st.channelNames ++ [ct.channelName],
        some ct, false⟩

/-! ### Concrete fixtures used by witnesses and counterexamples -/

def sampleOpenRow : TicketRow :=
  { id := 1, guild_id := "g1", channel_id := "c1", owner_id := "u1",
    claimed_by := none, status := "open",
    category := some "Overige Vragen", topic := none, created_at := 0 }

def sampleClosedRow : TicketRow :=
  { sampleOpenRow with id := 2, channel_id := "c2", status := "closed" }

def sampleClaimedRow : TicketRow :=
  { sampleOpenRow with id := 3, channel_id := "c3", claimed_by := some "staff1" }

def sampleMsg (i : Nat) : ChannelMsg :=
  { id := i, createdAtIso := "2024-01-01T00:00:0" ++ natToString i ++ ".000Z",
    authorTag := some "alice#1", content := "bericht " ++ natToString i,
    attachments := if i = 2 then [{ url := "https://cdn.example/a.png" }] else [] }

def sampleChannel : GuildChannel :=
  { id := "c1", name := "overige-vragen-alice",
    history := [sampleMsg 3, sampleMsg 2, sampleMsg 1] }

def emptyFiles : FileStore := fun _ => none

def emptyPending : PendingMap := fun _ => none

def sampleBotState : BotState :=
  { db := [sampleOpenRow], channels := [sampleChannel], files := emptyFiles }

def sampleCreateEnv : CreateEnv :=
  { guildId := "g1", existingNames := ["overige-vragen-alice"],
    newChannelId := "c9", newTicketId := 9, now := 1000,
    username := "Alice", nickname := none }

lemma mem_collapseAux {c : Char} :
    ∀ {l : List Char} {b : Bool}, c ∈ collapseAux b l →
      c = '-' ∨ (c ∈ l ∧ isJsSpace c = false) := by
  intro l
  induction l with
  | nil => intro b h; simp [collapseAux] at h
  | cons d cs ih =>
    intro b h
    by_cases hsp : isJsSpace d = true
    · rw [collapseAux, if_pos hsp] at h
      rcases b with _ | _
      · simp only [Bool.false_eq_true, if_false] at h
        rcases List.mem_cons.mp h with h | h
        · exact Or.inl h
        · rcases ih h with h | ⟨hmem, hns⟩
          · exact Or.inl h
          · exact Or.inr ⟨List.mem_cons_of_mem _ hmem, hns⟩
      · simp only [if_true] at h
        rcases ih h with h | ⟨hmem, hns⟩
        · exact Or.inl h
        · exact Or.inr ⟨List.mem_cons_of_mem _ hmem, hns⟩
    · rw [collapseAux, if_neg hsp] at h
      rcases List.mem_cons.mp h with h | h
      · subst h
        exact Or.inr ⟨List.mem_cons_self _ _, by simpa using hsp⟩
      · rcases ih h with h | ⟨hmem, hns⟩
        · exact Or.inl h
        · exact Or.inr ⟨List.mem_cons_of_mem _ hmem, hns⟩

lemma mem_jsTrim {c : Char} {l : List Char} (h : c ∈ jsTrim l) : c ∈ l := by
  unfold jsTrim at h
  rw [List.mem_reverse] at h
  have h2 := (List.dropWhile_sublist _).mem h
  rw [List.mem_reverse] at h2
  exact (List.dropWhile_sublist _).mem h2

lemma keepChar_not_space {c : Char} (hk : keepChar c = true)
    (hs : isJsSpace c = false) : isOutChar c = true := by
  unfold keepChar at hk
  unfold isOutChar
  simp only [Bool.or_eq_true, decide_eq_true_eq] at hk ⊢
  rcases hk with (hk | hk) | hk
  · rcases hk with h | h
    · exact Or.inl h
    · exact Or.inr (Or.inl h)
  · rw [hk] at hs; cases hs
  · rcases hk with h | h
    · exact Or.inr (Or.inr (Or.inl h))
    · exact Or.inr (Or.inr (Or.inr h))

/-! ### Lookup/update lemmas for the ticket table -/

lemma getTicketById_map (db : TicketDB) (tid : Nat) (f : TicketRow → TicketRow)
    (hf : ∀ r, (f r).id = r.id) :
    getTicketById (db.map f) tid = (getTicketById db tid).map f := by
  unfold getTicketById
  have hp : ((fun r : TicketRow => r.id == tid) ∘ f) =
      (fun r : TicketRow => r.id == tid) := by
    funext r
    simp [Function.comp, hf]
  rw [List.find?_map, hp]

lemma getTicketByChannel_map (db : TicketDB) (cid : String)
    (f : TicketRow → TicketRow) (hf : ∀ r, (f r).channel_id = r.channel_id) :
    getTicketByChannel (db.map f) cid = (getTicketByChannel db cid).map f := by
  unfold getTicketByChannel
  have hp : ((fun r : TicketRow => r.channel_id == cid) ∘ f) =
      (fun r : TicketRow => r.channel_id == cid) := by
    funext r
    simp [Function.comp, hf]
  rw [List.find?_map, hp]

lemma getTicketById_eq_id {db : TicketDB} {tid : Nat} {row : TicketRow}
    (h : getTicketById db tid = some row) : row.id = tid := by
  unfold getTicketById at h
  simpa using List.find?_some h

lemma getTicketById_updateTicketClaim {db : TicketDB} {tid : Nat} {row : TicketRow}
    (a : String) (h : getTicketById db tid = some row) :
    getTicketById (updateTicketClaim db tid a) tid =
      some { row with claimed_by := some a } := by
  unfold updateTicketClaim
  rw [getTicketById_map _ _ _ (by intro r; split <;> rfl), h]
  have hid : row.id = tid := getTicketById_eq_id h
  simp [hid]

lemma getTicketById_unclaimTicket {db : TicketDB} {tid : Nat} {row : TicketRow}
    (h : getTicketById db tid = some row) :
    getTicketById (unclaimTicket db tid) tid =
      some { row with claimed_by := none } := by
  unfold unclaimTicket
  rw [getTicketById_map _ _ _ (by intro r; split <;> rfl), h]
  have hid : row.id = tid := getTicketById_eq_id h
  simp [hid]

lemma getTicketById_closeTicketRow {db : TicketDB} {tid : Nat} {row : TicketRow}
    (h : getTicketById db tid = some row) :
    getTicketById (closeTicketRow db tid) tid =
      some { row with status := "closed" } := by
  unfold closeTicketRow
  rw [getTicketById_map _ _ _ (by intro r; split <;> rfl), h]
  have hid : row.id = tid := getTicketById_eq_id h
  simp [hid]

lemma getTicketByChannel_updateTicketClaim {db : TicketDB} {cid : String}
    {row : TicketRow} (a : String) (h : getTicketByChannel db cid = some row) :
    getTicketByChannel (updateTicketClaim db row.id a) cid =
      some { row with claimed_by := some a } := by
  unfold updateTicketClaim
  rw [getTicketByChannel_map _ _ _ (by intro r; split <;> rfl), h]
  simp

lemma getTicketByChannel_unclaimTicket {db : TicketDB} {cid : String}
    {row : TicketRow} (h : getTicketByChannel db cid = some row) :
    getTicketByChannel (unclaimTicket db row.id) cid =
      some { row with claimed_by := none } := by
  unfold unclaimTicket
  rw [getTicketByChannel_map _ _ _ (by intro r; split <;> rfl), h]
  simp

lemma getTicketByChannel_closeTicketRow {db : TicketDB} {cid : String}
    {row : TicketRow} (h : getTicketByChannel db cid = some row) :
    getTicketByChannel (closeTicketRow db row.id) cid =
      some { row with status := "closed" } := by
  unfold closeTicketRow
  rw [getTicketByChannel_map _ _ _ (by intro r; split <;> rfl), h]
  simp

lemma row_unclaimed_eta (row : TicketRow) (h : row.claimed_by = none) :
    { row with claimed_by := none } = row := by
  cases row
  simp_all

/-! ### Claim theorems -/

/-- C7: normalizeForName (the spec's slugify) lowercases, strips characters
outside [a-z0-9\s-_], trims, and collapses whitespace runs to single
dashes; every character of the result is a lowercase ASCII letter, a
digit, a dash, or an underscore (dashes arise from whitespace runs and
from literal dashes; literal underscores pass through unchanged), and the
empty string maps to the empty string. -/
theorem claim7_slugify_alphabet :
    (∀ (s : String) (c : Char),
      c ∈ (normalizeForName s).data → isOutChar c = true) ∧
    normalizeForName "" = "" := by
  constructor
  · intro s c hc
    unfold normalizeForName at hc
    by_cases hs : s = ""
    · rw [if_pos hs] at hc
      simp at hc
    · rw [if_neg hs] at hc
      have hc2 : c ∈ collapseSpaces
          (jsTrim ((s.data.map Char.toLower).filter keepChar)) := hc
      rcases mem_collapseAux hc2 with h | ⟨hmem, hns⟩
      · subst h
        decide
      · have hk : keepChar c = true :=
          List.of_mem_filter (mem_jsTrim hmem)
        exact keepChar_not_space hk hns
  · rfl

theorem claim7_slugify_alphabet_witness :
    ('a' ∈ (normalizeForName "  Héllo_World args! ").data ∧
      isOutChar 'a' = true) ∧
    normalizeForName "" = "" :=
  ⟨⟨by decide, claim7_slugify_alphabet.1 "  Héllo_World args! " 'a' (by decide)⟩,
    claim7_slugify_alphabet.2⟩

/-- C2: on a ticket whose claimed_by is null, a claim (button or /claim
command) by a staff actor sets claimed_by to the actor's id and changes
nothing else in the row; a claim by a non-staff actor, or on an
already-claimed ticket, replies with an error and leaves the database
unchanged. -/
theorem claim2_claim_transition :
    ∀ (db : TicketDB) (actorId : String),
      (∀ (tid : Nat) (row : TicketRow), getTicketById db tid = some row →
        (row.claimed_by = none →
          getTicketById (claimButton db true actorId tid).1 tid =
              some { row with claimed_by := some actorId } ∧
            (claimButton db true actorId tid).2 = .ok "Ticket geclaimd") ∧
        claimButton db false actorId tid = (db, .err "Geen permissie") ∧
        (∀ u, row.claimed_by = some u →
          claimButton db true actorId tid = (db, .err "Al geclaimd"))) ∧
      (∀ (cid : String) (row : TicketRow), getTicketByChannel db cid = some row →
        (row.claimed_by = none →
          getTicketByChannel (claimCommand db true actorId cid).1 cid =
              some { row with claimed_by := some actorId } ∧
            (claimCommand db true actorId cid).2 = .ok "Geclaimd") ∧
        claimCommand db false actorId cid = (db, .err "Geen permissie") ∧
        (∀ u, row.claimed_by = some u →
          claimCommand db true actorId cid = (db, .err "Al geclaimd"))) := by
  intro db actorId
  constructor
  · intro tid row hrow
    refine ⟨fun hcb => ?_, ?_, fun u hcb => ?_⟩
    · unfold claimButton
      rw [hrow]
      dsimp only
      rw [hcb]
      exact ⟨getTicketById_updateTicketClaim actorId hrow, rfl⟩
    · unfold claimButton
      rw [hrow]
      rfl
    · unfold claimButton
      rw [hrow]
      dsimp only
      rw [hcb]
      rfl
  · intro cid row hrow
    refine ⟨fun hcb => ?_, ?_, fun u hcb => ?_⟩
    · unfold claimCommand
      rw [hrow]
      dsimp only
      rw [hcb]
      exact ⟨getTicketByChannel_updateTicketClaim actorId hrow, rfl⟩
    · unfold claimCommand
      rw [hrow]
      rfl
    · unfold claimCommand
      rw [hrow]
      dsimp only
      rw [hcb]
      rfl

theorem claim2_claim_transition_witness :
    (getTicketById [sampleOpenRow, sampleClaimedRow] 1 = some sampleOpenRow ∧
      sampleOpenRow.claimed_by = none ∧
      getTicketById
          (claimButton [sampleOpenRow, sampleClaimedRow] true "staff9" 1).1 1 =
        some { sampleOpenRow with claimed_by := some "staff9" }) ∧
    (getTicketById [sampleOpenRow, sampleClaimedRow] 3 = some sampleClaimedRow ∧
      claimButton [sampleOpenRow, sampleClaimedRow] true "staff9" 3 =
        ([sampleOpenRow, sampleClaimedRow], .err "Al geclaimd")) :=
  ⟨⟨by decide, by decide,
      (((claim2_claim_transition [sampleOpenRow, sampleClaimedRow] "staff9").1
        1 sampleOpenRow (by decide)).1 (by decide)).1⟩,
    ⟨by decide,
      ((claim2_claim_transition [sampleOpenRow, sampleClaimedRow] "staff9").1
        3 sampleClaimedRow (by decide)).2.2 "staff1" (by decide)⟩⟩

/-- C3: unclaim is the exact inverse of claim: a staff unclaim on a ticket
whose claimed_by is set clears it to null; an unclaim on an unclaimed
ticket or by a non-staff actor is rejected with no change; and unclaim
after claim restores the original unclaimed row. -/
theorem claim3_unclaim_inverse :
    ∀ (db : TicketDB) (actorId : String),
      (∀ (tid : Nat) (row : TicketRow), getTicketById db tid = some row →
        (∀ u, row.claimed_by = some u →
          getTicketById (unclaimButton db true tid).1 tid =
              some { row with claimed_by := none } ∧
            (unclaimButton db true tid).2 = .ok "Ticket geunclaimd") ∧
        unclaimButton db false tid = (db, .err "Geen permissie") ∧
        (row.claimed_by = none →
          unclaimButton db true tid = (db, .err "Niet geclaimd")) ∧
        (row.claimed_by = none →
          getTicketById (unclaimButton (claimButton db true actorId tid).1
              true tid).1 tid = some row)) ∧
      (∀ (cid : String) (row : TicketRow), getTicketByChannel db cid = some row →
        (∀ u, row.claimed_by = some u →
          getTicketByChannel (unclaimCommand db true cid).1 cid =
              some { row with claimed_by := none } ∧
            (unclaimCommand db true cid).2 = .ok "Geunclaimd") ∧
        unclaimCommand db false cid = (db, .err "Geen permissie") ∧
        (row.claimed_by = none →
          unclaimCommand db true cid = (db, .err "Niet geclaimd"))) := by
  intro db actorId
  constructor
  · intro tid row hrow
    refine ⟨fun u hcb => ?_, ?_, fun hcb => ?_, fun hcb => ?_⟩
    · unfold unclaimButton
      rw [hrow]
      dsimp only
      rw [hcb]
      exact ⟨getTicketById_unclaimTicket hrow, rfl⟩
    · unfold unclaimButton
      rw [hrow]
      rfl
    · unfold unclaimButton
      rw [hrow]
      dsimp only
      rw [hcb]
      rfl
    · have hclaim : (claimButton db true actorId tid).1 =
          updateTicketClaim db tid actorId := by
        unfold claimButton
        rw [hrow]
        dsimp only
        rw [hcb]
        rfl
      have hrow2 : getTicketById (updateTicketClaim db tid actorId) tid =
          some { row with claimed_by := some actorId } :=
        getTicketById_updateTicketClaim actorId hrow
      rw [hclaim]
      unfold unclaimButton
      rw [hrow2]
      dsimp only
      have h3 := getTicketById_unclaimTicket hrow2
      simpa [row_unclaimed_eta row hcb] using h3
  · intro cid row hrow
    refine ⟨fun u hcb => ?_, ?_, fun hcb => ?_⟩
    · unfold unclaimCommand
      rw [hrow]
      dsimp only
      rw [hcb]
      exact ⟨getTicketByChannel_unclaimTicket hrow, rfl⟩
    · unfold unclaimCommand
      rw [hrow]
      rfl
    · unfold unclaimCommand
      rw [hrow]
      dsimp only
      rw [hcb]
      rfl

theorem claim3_unclaim_inverse_witness :
    (getTicketById [sampleClaimedRow] 3 = some sampleClaimedRow ∧
      sampleClaimedRow.claimed_by = some "staff1" ∧
      getTicketById (unclaimButton [sampleClaimedRow] true 3).1 3 =
        some { sampleClaimedRow with claimed_by := none }) ∧
    (getTicketById [sampleOpenRow] 1 = some sampleOpenRow ∧
      sampleOpenRow.claimed_by = none ∧
      getTicketById
          (unclaimButton (claimButton [sampleOpenRow] true "staff9" 1).1
            true 1).1 1 = some sampleOpenRow) :=
  ⟨⟨by decide, by decide,
      (((claim3_unclaim_inverse [sampleClaimedRow] "staff9").1 3
        sampleClaimedRow (by decide)).1 "staff1" (by decide)).1⟩,
    ⟨by decide, by decide,
      ((claim3_unclaim_inverse [sampleOpenRow] "staff9").1 1 sampleOpenRow
        (by decide)).2.2.2 (by decide)⟩⟩

/-- C4 counterexample: the claim/unclaim handlers do not read status.  A
staff claim on the closed, unclaimed sampleClosedRow mutates the record,
so the claim that a closed ticket's record is never changed by a claim
action is false. -/
theorem claim4_counterexample :
    sampleClosedRow.status = "closed" ∧
    sampleClosedRow.claimed_by = none ∧
    (claimButton [sampleClosedRow] true "staff9" 2).1 ≠ [sampleClosedRow] := by
  decide

/-- C4 amended: the claim and unclaim handlers check only staff capability
and the current claimed_by value, never status; so a staff claim on an
unclaimed ticket mutates the record even when the ticket's status is
'closed' (and symmetrically for unclaim on a claimed closed ticket). -/
theorem claim4_claim_ignores_status :
    ∀ (db : TicketDB) (actorId : String) (tid : Nat) (row : TicketRow),
      getTicketById db tid = some row →
      row.status = "closed" →
      (row.claimed_by = none →
        getTicketById (claimButton db true actorId tid).1 tid =
            some { row with claimed_by := some actorId } ∧
          { row with claimed_by := some actorId } ≠ row) ∧
      (∀ u, row.claimed_by = some u →
        getTicketById (unclaimButton db true tid).1 tid =
            some { row with claimed_by := none } ∧
          { row with claimed_by := none } ≠ row) := by
  intro db actorId tid row hrow _hstatus
  constructor
  · intro hcb
    constructor
    · unfold claimButton
      rw [hrow]
      dsimp only
      rw [hcb]
      exact getTicketById_updateTicketClaim actorId hrow
    · intro hcontra
      have := congrArg TicketRow.claimed_by hcontra
      rw [hcb] at this
      simp at this
  · intro u hcb
    constructor
    · unfold unclaimButton
      rw [hrow]
      dsimp only
      rw [hcb]
      exact getTicketById_unclaimTicket hrow
    · intro hcontra
      have := congrArg TicketRow.claimed_by hcontra
      rw [hcb] at this
      simp at this

theorem claim4_claim_ignores_status_witness :
    (getTicketById [sampleClosedRow] 2 = some sampleClosedRow ∧
      sampleClosedRow.status = "closed" ∧ sampleClosedRow.claimed_by = none) ∧
    getTicketById (claimButton [sampleClosedRow] true "staff9" 2).1 2 =
      some { sampleClosedRow with claimed_by := some "staff9" } :=
  ⟨⟨by decide, by decide, by decide⟩,
    ((claim4_claim_ignores_status [sampleClosedRow] "staff9" 2 sampleClosedRow
      (by decide) (by decide)).1 (by decide)).1⟩

/-- C1 counterexample: with the channel still present but makeTranscript
rejecting, the delayed close step of the close button aborts in its catch
block and never attempts the channel deletion, contradicting the claim
that the deletion attempt is made even if transcript generation failed. -/
theorem claim1_counterexample :
    (closeButtonDelayed
        { channelStillExists := true, transcriptResolves := false,
          staffLogAvailable := true, ownerAvailable := true,
          archiveDeliveryResolves := true, dmDeliveryResolves := true,
          deleteResolves := true }).deleteAttempted = false ∧
    (closeCommandDelayed
        { channelStillExists := true, transcriptResolves := false,
          staffLogAvailable := true, ownerAvailable := true,
          archiveDeliveryResolves := true, dmDeliveryResolves := true,
          deleteResolves := true }).deleteAttempted = false := by
  decide

/-- C1 amended: a staff close (button or command) sets the row's status to
'closed' synchronously, before the 5-second timer is armed; when the
delayed step runs and makeTranscript resolves, the channel-deletion
attempt is made unconditionally, even if archive delivery or the private
message failed; but when makeTranscript rejects (or the channel is gone),
the delayed step aborts without attempting the deletion. -/
theorem claim1_close_flow :
    (∀ (db : TicketDB) (tid : Nat) (row : TicketRow),
      getTicketById db tid = some row →
      getTicketById (closeButton db true tid).db tid =
          some { row with status := "closed" } ∧
        (closeButton db true tid).timerArmed = true) ∧
    (∀ (db : TicketDB) (cid : String) (row : TicketRow),
      getTicketByChannel db cid = some row →
      getTicketByChannel (closeCommand db true cid).db cid =
          some { row with status := "closed" } ∧
        (closeCommand db true cid).timerArmed = true) ∧
    (∀ env : CloseDelayedEnv,
      env.channelStillExists = true → env.transcriptResolves = true →
      (closeButtonDelayed env).deleteAttempted = true ∧
        (closeCommandDelayed env).deleteAttempted = true) ∧
    (∀ env : CloseDelayedEnv,
      env.transcriptResolves = false →
      (closeButtonDelayed env).deleteAttempted = false ∧
        (closeCommandDelayed env).deleteAttempted = false) := by
  refine ⟨?_, ?_, ?_, ?_⟩
  · intro db tid row hrow
    unfold closeButton
    rw [hrow]
    exact ⟨getTicketById_closeTicketRow hrow, rfl⟩
  · intro db cid row hrow
    unfold closeCommand
    rw [hrow]
    exact ⟨getTicketByChannel_closeTicketRow hrow, rfl⟩
  · intro env h1 h2
    obtain ⟨ce, tr, sl, ow, ar, dm, de⟩ := env
    simp only at h1 h2
    subst h1
    subst h2
    constructor <;> rfl
  · intro env h2
    obtain ⟨ce, tr, sl, ow, ar, dm, de⟩ := env
    simp only at h2
    subst h2
    cases ce <;> constructor <;> rfl

theorem claim1_close_flow_witness :
    (getTicketById [sampleOpenRow] 1 = some sampleOpenRow ∧
      getTicketById (closeButton [sampleOpenRow] true 1).db 1 =
        some { sampleOpenRow with status := "closed" }) ∧
    (closeButtonDelayed
        { channelStillExists := true, transcriptResolves := true,
          staffLogAvailable := true, ownerAvailable := true,
          archiveDeliveryResolves := false, dmDeliveryResolves := false,
          deleteResolves := true }).deleteAttempted = true :=
  ⟨⟨by decide, (claim1_close_flow.1 [sampleOpenRow] 1 sampleOpenRow (by decide)).1⟩,
    (claim1_close_flow.2.2.1
      { channelStillExists := true, transcriptResolves := true,
        staffLogAvailable := true, ownerAvailable := true,
        archiveDeliveryResolves := false, dmDeliveryResolves := false,
        deleteResolves := true } rfl rfl).1⟩

/-- C8: selecting a category stores the choice keyed by the requester's
user id, overwriting any earlier pending value; submitting the topic
modal removes the entry; and when no entry was pending the submission is
rejected and neither a row nor a channel is created. -/
theorem claim8_pending_handoff :
    (∀ (pending : PendingMap) (userId chosen : String),
      selectCategory pending userId chosen userId = some chosen ∧
      ∀ u, u ≠ userId → selectCategory pending userId chosen u = pending u) ∧
    (∀ (st : ModalState) (userId topicRaw : String) (env : CreateEnv),
      (submitTopicModal st userId topicRaw env).pending userId = none ∧
      (st.pending userId = none →
        (submitTopicModal st userId topicRaw env).rejected = true ∧
        (submitTopicModal st userId topicRaw env).db = st.db ∧
        (submitTopicModal st userId topicRaw env).channelNames =
          st.channelNames ∧
        (submitTopicModal st userId topicRaw env).created = none)) := by
  constructor
  · intro pending userId chosen
    constructor
    · unfold selectCategory
      simp
    · intro u hu
      unfold selectCategory
      simp [hu]
  · intro st userId topicRaw env
    constructor
    · unfold submitTopicModal
      cases hchosen : st.pending userId with
      | none =>
        simp
      | some c =>
        by_cases hc : c = "" <;> simp [hc]
    · intro hp
      unfold submitTopicModal
      rw [hp]
      exact ⟨rfl, rfl, rfl, rfl⟩

theorem claim8_pending_handoff_witness :
    (selectCategory emptyPending "u1" "2" "u1" = some "2" ∧
      ("u2" ≠ "u1" ∧
        selectCategory emptyPending "u1" "2" "u2" = emptyPending "u2")) ∧
    (emptyPending "u1" = none ∧
      (submitTopicModal
          { pending := emptyPending, db := [], channelNames := [] }
          "u1" "topic" sampleCreateEnv).rejected = true) :=
  ⟨⟨(claim8_pending_handoff.1 emptyPending "u1" "2").1,
      ⟨by decide,
        (claim8_pending_handoff.1 emptyPending "u1" "2").2 "u2" (by decide)⟩⟩,
    ⟨rfl,
      ((claim8_pending_handoff.2
          { pending := emptyPending, db := [], channelNames := [] }
          "u1" "topic" sampleCreateEnv).2 rfl).1⟩⟩

/-- C9: the manual transcript action (button or /transcript command) never
writes to the ticket table and never removes a channel, whatever the
actor and the ticket's status; when invoked by a staff actor on an
existing channel it writes the transcript file for that channel and
touches no other file. -/
theorem claim9_transcript_frame :
    (∀ (st : BotState) (staffActor : Bool) (tid : Nat),
      (transcriptButton st staffActor tid).1.db = st.db ∧
      (transcriptButton st staffActor tid).1.channels = st.channels) ∧
    (∀ (st : BotState) (staffActor : Bool) (ch : GuildChannel),
      (transcriptCommand st staffActor ch).1.db = st.db ∧
      (transcriptCommand st staffActor ch).1.channels = st.channels) ∧
    (∀ (st : BotState) (tid : Nat) (row : TicketRow) (ch : GuildChannel),
      getTicketById st.db tid = some row →
      findChannel st.channels row.channel_id = some ch →
      (transcriptButton st true tid).1.files (transcriptPath ch) =
          some (transcriptText ch) ∧
        ∀ p, p ≠ transcriptPath ch →
          (transcriptButton st true tid).1.files p = st.files p) ∧
    (∀ (st : BotState) (row : TicketRow) (ch : GuildChannel),
      getTicketByChannel st.db ch.id = some row →
      (transcriptCommand st true ch).1.files (transcriptPath ch) =
          some (transcriptText ch) ∧
        ∀ p, p ≠ transcriptPath ch →
          (transcriptCommand st true ch).1.files p = st.files p) := by
  refine ⟨?_, ?_, ?_, ?_⟩
  · intro st staffActor tid
    unfold transcriptButton
    split
    · exact ⟨rfl, rfl⟩
    · split
      · exact ⟨rfl, rfl⟩
      · split
        · exact ⟨rfl, rfl⟩
        · exact ⟨rfl, rfl⟩
  · intro st staffActor ch
    unfold transcriptCommand
    split
    · exact ⟨rfl, rfl⟩
    · split
      · exact ⟨rfl, rfl⟩
      · exact ⟨rfl, rfl⟩
  · intro st tid row ch hrow hch
    unfold transcriptButton
    rw [hrow]
    dsimp only
    rw [hch]
    constructor
    · simp [makeTranscript, writeFile]
    · intro p hp
      simp [makeTranscript, writeFile, hp]
  · intro st row ch hrow
    unfold transcriptCommand
    rw [hrow]
    constructor
    · simp [makeTranscript, writeFile]
    · intro p hp
      simp [makeTranscript, writeFile, hp]

theorem claim9_transcript_frame_witness :
    (getTicketById sampleBotState.db 1 = some sampleOpenRow ∧
      findChannel sampleBotState.channels sampleOpenRow.channel_id =
        some sampleChannel) ∧
    (transcriptButton sampleBotState true 1).1.db = sampleBotState.db ∧
    (transcriptButton sampleBotState true 1).1.files
        (transcriptPath sampleChannel) = some (transcriptText sampleChannel) :=
  ⟨⟨by decide, by decide⟩,
    (claim9_transcript_frame.1 sampleBotState true 1).1,
    ((claim9_transcript_frame.2.2.1 sampleBotState 1 sampleOpenRow
      sampleChannel (by decide) (by decide)).1)⟩

/-- C10: an out-of-range category index — a negative or too-large number,
or NaN from parsing a non-numeric pending value — does not make ticket
creation fail: the category silently falls back to 'Overige Vragen', and
both the created channel's name and the persisted row use the fallback. -/
theorem claim10_category_fallback :
    CATEGORIES.length = 17 ∧
    ∀ (env : CreateEnv) (userId : String) (topic : Option String)
      (idx : Option Int),
      (idx = none ∨ ∃ i, idx = some i ∧ (i < 0 ∨ (17 : Nat) ≤ i.toNat)) →
      (createTicketChannelFromChoice env userId idx topic).row.category =
          some "Overige Vragen" ∧
      (createTicketChannelFromChoice env userId idx topic).row.status =
          "open" ∧
      (createTicketChannelFromChoice env userId idx topic).channelName =
        pickName (channelBaseName "Overige Vragen" env.username env.nickname)
          env.existingNames := by
  constructor
  · rfl
  · intro env userId topic idx hidx
    have hcat : categoryFromIndex idx = "Overige Vragen" := by
      rcases hidx with h | ⟨i, hi, hrange⟩
      · rw [h]
        rfl
      · subst hi
        have hnone : (if 0 ≤ i then CATEGORIES.get? i.toNat else none) = none := by
          rcases hrange with hneg | hge
          · rw [if_neg (by omega)]
          · by_cases h0 : 0 ≤ i
            · rw [if_pos h0]
              exact List.get?_eq_none.mpr (by simpa using hge)
            · rw [if_neg h0]
        unfold categoryFromIndex
        dsimp only
        rw [hnone]
    unfold createTicketChannelFromChoice
    rw [hcat]
    exact ⟨rfl, rfl, rfl⟩

theorem claim10_category_fallback_witness :
    (parseIntJs "geen-getal" = none ∧
      (createTicketChannelFromChoice sampleCreateEnv "u7"
          (parseIntJs "geen-getal") none).row.category =
        some "Overige Vragen") ∧
    ((17 : Nat) ≤ (17 : Int).toNat ∧
      (createTicketChannelFromChoice sampleCreateEnv "u7"
          (some 17) none).row.category = some "Overige Vragen") :=
  ⟨⟨by decide,
      (claim10_category_fallback.2 sampleCreateEnv "u7" none
        (parseIntJs "geen-getal") (Or.inl (by decide))).1⟩,
    ⟨by decide,
      (claim10_category_fallback.2 sampleCreateEnv "u7" none
        (some 17) (Or.inr ⟨17, rfl, Or.inr (by decide)⟩)).1⟩⟩

/-! ### Channel-name uniqueness (C5) -/

lemma decimalDigitsAux_fuel_irrel :
    ∀ (n f g : Nat), n < f → n < g →
      decimalDigitsAux f n = decimalDigitsAux g n := by
  intro n
  induction n using Nat.strong_induction_on with
  | _ n ih =>
    intro f g hf hg
    cases f with
    | zero => omega
    | succ f =>
      cases g with
      | zero => omega
      | succ g =>
        by_cases h10 : n < 10
        · simp [decimalDigitsAux, h10]
        · have hd : n / 10 < n := Nat.div_lt_self (by omega) (by omega)
          simp only [decimalDigitsAux, if_neg h10]
          congr 1
          exact ih (n / 10) hd f g (by omega) (by omega)

lemma decimalDigits_eq (n : Nat) :
    decimalDigits n =
      if n < 10 then [digitChar n]
      else decimalDigits (n / 10) ++ [digitChar (n % 10)] := by
  unfold decimalDigits
  by_cases h10 : n < 10
  · simp [decimalDigitsAux, h10]
  · have hd : n / 10 < n := Nat.div_lt_self (by omega) (by omega)
    simp only [decimalDigitsAux, if_neg h10]
    congr 1
    exact decimalDigitsAux_fuel_irrel (n / 10) n (n / 10 + 1) hd
      (Nat.lt_succ_self _)

lemma length_decimalDigits_pow (k : Nat) :
    (decimalDigits (10 ^ k)).length = k + 1 := by
  induction k with
  | zero => rfl
  | succ k ih =>
    rw [decimalDigits_eq]
    have h10 : ¬ 10 ^ (k + 1) < 10 := by
      have h : 10 ^ 1 ≤ 10 ^ (k + 1) := Nat.pow_le_pow_right (by omega) (by omega)
      simpa using h
    rw [if_neg h10]
    have hdiv : 10 ^ (k + 1) / 10 = 10 ^ k := by
      rw [pow_succ]
      exact Nat.mul_div_cancel _ (by omega)
    rw [hdiv]
    simp [ih]

lemma le_maxNameLen : ∀ {existing : List String} {x : String},
    x ∈ existing → x.length ≤ maxNameLen existing := by
  intro existing
  induction existing with
  | nil =>
    intro x hx
    simp at hx
  | cons a l ih =>
    intro x hx
    rcases List.mem_cons.mp hx with h | h
    · subst h
      exact le_max_left _ _
    · exact le_trans (ih h) (le_max_right _ _)

lemma length_candidateName_pow (base : String) (k : Nat) :
    (candidateName base (10 ^ k)).length = base.length + 1 + (k + 1) := by
  unfold candidateName
  rw [if_neg (Nat.pos_iff_ne_zero.mp (Nat.pos_pow_of_pos k (by omega)))]
  rw [String.length_append, String.length_append]
  have h2 : (natToString (10 ^ k)).length = k + 1 := length_decimalDigits_pow k
  rw [h2]
  rfl

lemma candidate_maxlen_not_mem (base : String) (existing : List String) :
    candidateName base (10 ^ maxNameLen existing) ∉ existing := by
  intro hmem
  have h1 := le_maxNameLen hmem
  rw [length_candidateName_pow] at h1
  omega

lemma pickNameAux_first (base : String) (existing : List String) :
    ∀ (fuel i d : Nat), d < fuel →
      candidateName base (i + d) ∉ existing →
      ∃ d0, d0 ≤ d ∧
        pickNameAux base existing fuel i = candidateName base (i + d0) ∧
        candidateName base (i + d0) ∉ existing ∧
        ∀ e, e < d0 → candidateName base (i + e) ∈ existing := by
  intro fuel
  induction fuel with
  | zero =>
    intro i d hd _hnm
    exact absurd hd (by omega)
  | succ fuel ih =>
    intro i d hd hnm
    by_cases hmem : candidateName base i ∈ existing
    · have hd0 : d ≠ 0 := by
        intro h
        subst h
        rw [Nat.add_zero] at hnm
        exact hnm hmem
      obtain ⟨d', rfl⟩ : ∃ d', d = d' + 1 := ⟨d - 1, by omega⟩
      have hnm' : candidateName base ((i + 1) + d') ∉ existing := by
        have he : (i + 1) + d' = i + (d' + 1) := by omega
        rw [he]
        exact hnm
      obtain ⟨d0, hle, heq, hnm0, hall⟩ := ih (i + 1) d' (by omega) hnm'
      refine ⟨d0 + 1, by omega, ?_, ?_, ?_⟩
      · simp only [pickNameAux]
        rw [if_pos hmem, heq]
        congr 1
        omega
      · have he : i + (d0 + 1) = (i + 1) + d0 := by omega
        rw [he]
        exact hnm0
      · intro e he
        cases e with
        | zero =>
          rw [Nat.add_zero]
          exact hmem
        | succ e' =>
          have hee : i + (e' + 1) = (i + 1) + e' := by omega
          rw [hee]
          exact hall e' (by omega)
    · refine ⟨0, by omega, ?_, ?_, ?_⟩
      · simp only [pickNameAux]
        rw [if_neg hmem, Nat.add_zero]
      · rw [Nat.add_zero]
        exact hmem
      · intro e he
        omega

/-- C5: for every base name and every finite set of existing channel names,
the while loop returns the first candidate of the sequence base, base-1,
base-2, ... that is not among the existing names; in particular the chosen
name differs from every existing name. -/
theorem claim5_unique_channel_name :
    ∀ (base : String) (existing : List String),
      pickName base existing ∉ existing ∧
      ∃ d, pickName base existing = candidateName base d ∧
        ∀ e, e < d → candidateName base e ∈ existing := by
  intro base existing
  have h0 : candidateName base (0 + 10 ^ maxNameLen existing) ∉ existing := by
    rw [Nat.zero_add]
    exact candidate_maxlen_not_mem base existing
  obtain ⟨d0, _, heq, hnm0, hall⟩ :=
    pickNameAux_first base existing (10 ^ maxNameLen existing + 1) 0
      (10 ^ maxNameLen existing) (Nat.lt_succ_self _) h0
  simp only [Nat.zero_add] at heq hnm0 hall
  constructor
  · unfold pickName
    rw [heq]
    exact hnm0
  · refine ⟨d0, ?_, hall⟩
    unfold pickName
    exact heq

theorem claim5_unique_channel_name_witness :
    pickName "hulp-bob" ["hulp-bob", "hulp-bob-1", "hulp-eva"] ∉
        ["hulp-bob", "hulp-bob-1", "hulp-eva"] ∧
    pickName "hulp-bob" ["hulp-bob", "hulp-bob-1", "hulp-eva"] =
        "hulp-bob-2" ∧
    candidateName "hulp-bob" 0 ∈ ["hulp-bob", "hulp-bob-1", "hulp-eva"] ∧
    candidateName "hulp-bob" 1 ∈ ["hulp-bob", "hulp-bob-1", "hulp-eva"] :=
  ⟨(claim5_unique_channel_name "hulp-bob"
      ["hulp-bob", "hulp-bob-1", "hulp-eva"]).1,
    by decide, by decide, by decide⟩

/-! ### Transcript paging (C6)

For a newest-first history with strictly decreasing ids (the platform's
snowflake order), the backwards-walking page loop accumulates exactly the
whole history. -/

lemma filter_lt_pivot (l₁ l₂ : List ChannelMsg) (m : ChannelMsg)
    (h : (l₁ ++ m :: l₂).Pairwise (fun a b => b.id < a.id)) :
    (l₁ ++ m :: l₂).filter (fun x => decide (x.id < m.id)) = l₂ := by
  rw [List.filter_append]
  rw [List.pairwise_append] at h
  obtain ⟨_h1, h2, h12⟩ := h
  have hl1 : l₁.filter (fun x => decide (x.id < m.id)) = [] := by
    rw [List.filter_eq_nil_iff]
    intro a ha
    have hma : m.id < a.id := h12 a ha m (List.mem_cons_self m l₂)
    simp only [decide_eq_true_eq]
    omega
  rw [hl1, List.nil_append, List.filter_cons]
  rw [if_neg (by simp)]
  rw [List.filter_eq_self]
  intro a ha
  rw [List.pairwise_cons] at h2
  simp only [decide_eq_true_eq]
  exact h2.1 a ha

lemma fetchAll_go (history : List ChannelMsg)
    (hs : history.Pairwise (fun a b => b.id < a.id)) :
    ∀ (fuel : Nat) (done rest acc : List ChannelMsg) (lastId : Option Nat),
      history = done ++ rest →
      olderThan history lastId = rest →
      rest.length < fuel →
      fetchAllMessages history fuel acc lastId = acc ++ rest := by
  intro fuel
  induction fuel with
  | zero =>
    intro done rest acc lastId _ _ hlen
    exact absurd hlen (by omega)
  | succ fuel ih =>
    intro done rest acc lastId hsplit hview hlen
    have hfetch : fetchPage history lastId = rest.take 100 := by
      unfold fetchPage
      rw [hview]
    cases rest with
    | nil =>
      simp [fetchAllMessages, hfetch]
    | cons r rs =>
      by_cases hlt : (r :: rs).length < 100
      · have htake : (r :: rs).take 100 = r :: rs :=
          List.take_of_length_le (by omega)
        rw [htake] at hfetch
        simp only [fetchAllMessages, hfetch]
        rw [if_neg (by simp)]
        rw [List.getLast?_eq_getLast _ (by simp)]
        dsimp only
        rw [if_pos hlt]
      · have h100 : ((r :: rs).take 100).length = 100 := by
          rw [List.length_take]
          omega
        have hne : (r :: rs).take 100 ≠ [] := by
          intro hc
          rw [hc] at h100
          simp at h100
        have hdecomp : history =
            (done ++ ((r :: rs).take 100).dropLast) ++
              ((r :: rs).take 100).getLast hne :: (r :: rs).drop 100 := by
          rw [hsplit]
          conv_lhs =>
            rw [← List.take_append_drop 100 (r :: rs),
              ← List.dropLast_append_getLast hne]
          simp [List.append_assoc]
        have hview' : olderThan history
            (some (((r :: rs).take 100).getLast hne).id) =
              (r :: rs).drop 100 := by
          show history.filter _ = _
          have hs2 := hs
          rw [hdecomp] at hs2
          rw [hdecomp]
          exact filter_lt_pivot _ _ _ hs2
        have hsplit' : history =
            (done ++ (r :: rs).take 100) ++ (r :: rs).drop 100 := by
          rw [hsplit, List.append_assoc, List.take_append_drop]
        have hlen' : ((r :: rs).drop 100).length < fuel := by
          rw [List.length_drop]
          omega
        have hrec := ih (done ++ (r :: rs).take 100) ((r :: rs).drop 100)
          (acc ++ (r :: rs).take 100)
          (some (((r :: rs).take 100).getLast hne).id) hsplit' hview' hlen'
        simp only [fetchAllMessages, hfetch]
        rw [if_neg (by rw [h100]; omega)]
        rw [List.getLast?_eq_getLast _ hne]
        dsimp only
        rw [if_neg (by rw [h100]; omega)]
        rw [hrec, List.append_assoc, List.take_append_drop]

lemma fetchAll_eq_history (history : List ChannelMsg)
    (hs : history.Pairwise (fun a b => b.id < a.id)) :
    fetchAllMessages history (history.length + 1) [] none = history := by
  have h := fetchAll_go history hs (history.length + 1) [] history [] none
    (by simp) rfl (by omega)
  simpa using h

/-- C6: for a newest-first channel history with strictly decreasing ids,
the transcript builder's page loop (100-message pages anchored before the
last id seen, stopping on an empty or short page) accumulates exactly the
full history; the text renders the messages oldest first, one
[time] author: content line per message followed by one indented
attachment line per attachment (renderMessage); and the file is written
under the transcripts directory keyed by the channel id, overwriting any
previous content at that path and touching no other path. -/
theorem claim6_transcript_builder :
    ∀ (fs : FileStore) (ch : GuildChannel),
      ch.history.Pairwise (fun a b => b.id < a.id) →
      fetchAllMessages ch.history (ch.history.length + 1) [] none =
          ch.history ∧
      (makeTranscript fs ch).2 =
          "transcripts/" ++ ch.id ++ "-transcript.txt" ∧
      (makeTranscript fs ch).1 ((makeTranscript fs ch).2) =
        some ("Transcript van #" ++ ch.name ++ "\n\n" ++
          String.join ((ch.history.reverse).map renderMessage)) ∧
      (∀ p, p ≠ (makeTranscript fs ch).2 →
        (makeTranscript fs ch).1 p = fs p) := by
  intro fs ch hs
  have hfetch := fetchAll_eq_history ch.history hs
  refine ⟨hfetch, rfl, ?_, ?_⟩
  · show writeFile fs (transcriptPath ch) (transcriptText ch)
        (transcriptPath ch) = _
    unfold writeFile
    rw [if_pos rfl]
    unfold transcriptText
    rw [hfetch]
  · intro p hp
    show writeFile fs (transcriptPath ch) (transcriptText ch) p = fs p
    unfold writeFile
    exact if_neg hp

theorem claim6_transcript_builder_witness :
    sampleChannel.history.Pairwise (fun a b => b.id < a.id) ∧
    (makeTranscript emptyFiles sampleChannel).1
        ((makeTranscript emptyFiles sampleChannel).2) =
      some ("Transcript van #" ++ sampleChannel.name ++ "\n\n" ++
        String.join ((sampleChannel.history.reverse).map renderMessage)) :=
  ⟨by decide,
    (claim6_transcript_builder emptyFiles sampleChannel (by decide)).2.2.1⟩

end SupportBot
